import Mathlib

/-!
Verification of the payment ledger backend (src/index.js).

The server keeps two Postgres tables, customers(account_number, emi_due, ...)
and payments(id, customer_account_number, payment_amount, status, payment_date),
and exposes five routes.  We embed the database state and each route handler
as Lean functions.  Monetary values are rationals (Postgres NUMERIC), and
timestamps are naturals (seconds); the SQL cast payment_date::date is
division by 86400.  SQL statements issued by a handler may raise a storage
error; a fault oracle (Nat to Bool, indexed by the position of the statement
inside the handler) decides which statements fail.  Transactions follow
Postgres READ COMMITTED semantics: statements read committed state, writes
are buffered and published at COMMIT, and a rollback (explicit or caused by
an error) discards the buffer.
-/

namespace PaymentApp

/-- A row of the customers table.  The field `extra` stands for the remaining
customer columns, which the engine never touches. -/
structure Account where
  account_number : String
  emi_due : Rat
  extra : String
deriving DecidableEq

/-- A row of the payments table.  `id` is generated from the table sequence,
`payment_date` is the server-assigned insertion timestamp. -/
structure Payment where
  id : Nat
  customer_account_number : String
  payment_amount : Rat
  status : String
  payment_date : Nat
deriving DecidableEq

/-- The durable state: the two tables, the payments id sequence, and the
database clock (used for payment_date and CURRENT_DATE). -/
structure DB where
  customers : List Account
  payments : List Payment
  nextId : Nat
  now : Nat
deriving DecidableEq

/-- Outcome of POST /payments, one constructor per HTTP status the handler
produces: 201 with the inserted row and new_balance, 400, 404, 500. -/
inductive PayResult where
  | success (payment : Payment) (new_balance : Rat)
  | invalidArgument
  | notFound
  | storageError
deriving DecidableEq

/-- Whether a `PayResult` is the 201 success outcome. -/
def PayResult.isSuccess : PayResult → Bool
  | .success _ _ => true
  | _ => false

/-- Result of one invocation of the payments handler: the HTTP-level result,
the committed database state afterwards, and how many pool connection
handles the invocation still holds after it finished. -/
structure PayOutcome where
  result : PayResult
  db : DB
  heldHandles : Nat
deriving DecidableEq

/-- The fault oracle under which every SQL statement succeeds. -/
def noFault : Nat → Bool := fun _ => false

/-- The fault oracle under which exactly the first SQL statement of the
handler fails. -/
def failFirst : Nat → Bool := fun k => k == 0

/-- The effect of the UPDATE statement
`UPDATE customers SET emi_due = $1 WHERE account_number = $2`:
every row whose account_number matches gets the new due, all other rows and
all other columns are untouched. -/
def updCustomers (l : List Account) (s : String) (v : Rat) : List Account :=
  l.map (fun c => if c.account_number = s then Account.mk c.account_number v c.extra else c)

/-- The rows of `SELECT emi_due FROM customers WHERE account_number = $1`. -/
def duesFor (l : List Account) (s : String) : List Rat :=
  (l.filter (fun c => c.account_number = s)).map (fun c => c.emi_due)

/-- The due the handler reads: `customerCheck.rows[0].emi_due`. -/
def firstDue (db : DB) (s : String) : Option Rat :=
  (duesFor db.customers s).head?

/-- The body of the POST /payments handler after validation, for a truthy
account number `s` and truthy amount `a` (src/index.js lines 56-100).
SQL statements in issue order: 0 = BEGIN, 1 = SELECT, then on the not-found
path 2 = ROLLBACK, and on the main path 2 = INSERT, 3 = UPDATE, 4 = COMMIT.
A failing statement raises, the catch block rolls the transaction back
(discarding the buffered INSERT/UPDATE) and answers 500; the finally block
releases the connection on every path, so no handle is ever retained. -/
def recordPaymentBody (oracle : Nat → Bool) (s : String) (a : Rat) (db : DB) : PayOutcome :=
  if oracle 0 then PayOutcome.mk PayResult.storageError db 0
  else if oracle 1 then PayOutcome.mk PayResult.storageError db 0
  else
    match db.customers.filter (fun c => c.account_number = s) with
    | [] =>
      if oracle 2 then PayOutcome.mk PayResult.storageError db 0
      else PayOutcome.mk PayResult.notFound db 0
    | c :: _ =>
      if oracle 2 then PayOutcome.mk PayResult.storageError db 0
      else if oracle 3 then PayOutcome.mk PayResult.storageError db 0
      else if oracle 4 then PayOutcome.mk PayResult.storageError db 0
      else
        PayOutcome.mk
          (PayResult.success (Payment.mk db.nextId s a "SUCCESS" db.now) (c.emi_due - a))
          (DB.mk (updCustomers db.customers s (c.emi_due - a))
            (db.payments ++ [Payment.mk db.nextId s a "SUCCESS" db.now])
            (db.nextId + 1) db.now)
          0

/-- The POST /payments handler (src/index.js lines 49-101).  The request
body fields are modelled as `Option String` / `Option Rat`, `none` standing
for an absent or null JSON field.  The guard mirrors JavaScript truthiness
of `!account_number || !amount`: an absent field, the empty string and the
number 0 are falsy.  On validation failure the handler answers 400 before
`pool.connect()`, so no statement is issued and no handle acquired. -/
def recordPayment (oracle : Nat → Bool) (account_number : Option String)
    (amount : Option Rat) (db : DB) : PayOutcome :=
  match account_number, amount with
  | some s, some a =>
    if s = "" ∨ a = 0 then PayOutcome.mk PayResult.invalidArgument db 0
    else recordPaymentBody oracle s a db
  | _, _ => PayOutcome.mk PayResult.invalidArgument db 0

/-- Result of one invocation of GET /analytics: the returned pair
(collected_today, pending_total), or `none` for the 500 answer, together
with the number of pool connection handles the invocation still holds. -/
structure AnalyticsOutcome where
  result : Option (Rat × Rat)
  heldHandles : Nat
deriving DecidableEq

/-- The SQL cast payment_date::date, with timestamps counted in seconds. -/
def dateOf (t : Nat) : Nat := t / 86400

/-- Sum of a list of rationals. -/
def listSum (l : List Rat) : Rat := l.foldl (fun acc x => acc + x) 0

/-- SQL SUM: NULL on an empty set of rows, the sum otherwise. -/
def sqlSum (l : List Rat) : Option Rat :=
  match l with
  | [] => none
  | _ => some (listSum l)

/-- JavaScript `x || 0` applied to a nullable number: null and 0 are falsy. -/
def jsOrZero (o : Option Rat) : Rat :=
  match o with
  | none => 0
  | some x => if x = 0 then 0 else x

/-- The payment_amount column of
`SELECT ... FROM payments WHERE payment_date::date = CURRENT_DATE`. -/
def todayAmounts (db : DB) : List Rat :=
  (db.payments.filter (fun p => dateOf p.payment_date = dateOf db.now)).map
    (fun p => p.payment_amount)

/-- The emi_due column of `SELECT ... FROM customers`. -/
def allDues (db : DB) : List Rat :=
  db.customers.map (fun c => c.emi_due)

/-- The GET /analytics handler (src/index.js lines 130-158).  Statements in
issue order: 0 = the collected-today SUM, 1 = the pending-dues SUM.  The
handler acquires a connection inside the try block and calls
`client.release()` only after both queries succeeded; the catch block
answers 500 without releasing, so a failing query leaves the handle held. -/
def getAnalytics (oracle : Nat → Bool) (db : DB) : AnalyticsOutcome :=
  if oracle 0 then AnalyticsOutcome.mk none 1
  else if oracle 1 then AnalyticsOutcome.mk none 1
  else
    AnalyticsOutcome.mk
      (some (Prod.mk (jsOrZero (sqlSum (todayAmounts db)))
                     (jsOrZero (sqlSum (allDues db)))))
      0

/-- The order `ORDER BY payment_date DESC` sorts by: later (or equal)
timestamps first. -/
def dateDesc (p q : Payment) : Prop := q.payment_date ≤ p.payment_date

/-- Insert one row into a list already sorted by payment_date descending,
keeping it sorted. -/
def insertByDateDesc (p : Payment) : List Payment → List Payment
  | [] => [p]
  | q :: rest =>
    if p.payment_date ≤ q.payment_date then q :: insertByDateDesc p rest
    else p :: q :: rest

/-- Denotation of `ORDER BY payment_date DESC`: a sort of the selected rows
by payment_date, newest first. -/
def orderByDateDesc (l : List Payment) : List Payment :=
  l.foldr insertByDateDesc []

/-- The GET /payments handler (src/index.js lines 105-113):
`SELECT * FROM payments ORDER BY payment_date DESC`. -/
def listPayments (db : DB) : List Payment :=
  orderByDateDesc db.payments

/-- The GET /payments/:account_number handler (src/index.js lines 115-127):
`SELECT * FROM payments WHERE customer_account_number = $1
 ORDER BY payment_date DESC`. -/
def listPaymentsForAccount (s : String) (db : DB) : List Payment :=
  orderByDateDesc (db.payments.filter (fun p => p.customer_account_number = s))

/-!
Concurrency model for two simultaneous POST /payments requests against the
same existing account, under Postgres READ COMMITTED (the isolation level a
plain BEGIN gives).  Each request, after validation, runs the statement
sequence SELECT, INSERT, UPDATE, COMMIT against the shared committed state:
a SELECT sees the committed rows; the INSERT draws its id from the shared,
non-transactional sequence and buffers the new row; the UPDATE takes the
row lock on the account (blocking while the other transaction holds it) and
buffers the new due, computed in JavaScript from the due its own SELECT
read; COMMIT publishes the buffered rows and releases the lock.  A schedule
is a list of booleans naming which transaction performs its next statement;
a schedule that would run a blocked or finished transaction is invalid.
-/

/-- Local state of one in-flight transaction.  Program counter: 0 = SELECT
next, 1 = INSERT next, 2 = UPDATE next, 3 = COMMIT next, 4 = committed
(request answered 201), 5 = aborted with 404. -/
structure TxSt where
  amount : Rat
  pc : Nat
  readDue : Rat
  pendingPayment : Option Payment
  pendingDue : Option Rat
deriving DecidableEq

/-- Result of one transaction statement: new committed state, new local
state, new holder of the account row lock. -/
structure StepRes where
  db : DB
  t : TxSt
  lock : Option Bool
deriving DecidableEq

/-- One statement of transaction `who` against account `acct`.  `none` means
the statement cannot run now (transaction blocked on the row lock, already
finished, or in a state the handler cannot produce). -/
def txStep (db : DB) (acct : String) (lock : Option Bool) (who : Bool) (t : TxSt) :
    Option StepRes :=
  match t.pc with
  | 0 =>
    match firstDue db acct with
    | none => some (StepRes.mk db (TxSt.mk t.amount 5 t.readDue t.pendingPayment t.pendingDue) lock)
    | some d => some (StepRes.mk db (TxSt.mk t.amount 1 d t.pendingPayment t.pendingDue) lock)
  | 1 =>
    some (StepRes.mk (DB.mk db.customers db.payments (db.nextId + 1) db.now)
      (TxSt.mk t.amount 2 t.readDue
        (some (Payment.mk db.nextId acct t.amount "SUCCESS" db.now)) t.pendingDue)
      lock)
  | 2 =>
    match lock with
    | some _ => none
    | none =>
      some (StepRes.mk db
        (TxSt.mk t.amount 3 t.readDue t.pendingPayment (some (t.readDue - t.amount)))
        (some who))
  | 3 =>
    match t.pendingPayment, t.pendingDue, lock with
    | some p, some v, some w =>
      if w = who then
        some (StepRes.mk
          (DB.mk (updCustomers db.customers acct v) (db.payments ++ [p]) db.nextId db.now)
          (TxSt.mk t.amount 4 t.readDue t.pendingPayment t.pendingDue)
          none)
      else none
    | _, _, _ => none
  | _ => none

/-- Joint state of the two concurrent requests. -/
structure Sys where
  db : DB
  acct : String
  t1 : TxSt
  t2 : TxSt
  lock : Option Bool
deriving DecidableEq

/-- Run the next statement of transaction t1 (`who = false`) or t2
(`who = true`). -/
def sysStep (sys : Sys) (who : Bool) : Option Sys :=
  if who then
    match txStep sys.db sys.acct sys.lock true sys.t2 with
    | none => none
    | some r => some (Sys.mk r.db sys.acct sys.t1 r.t r.lock)
  else
    match txStep sys.db sys.acct sys.lock false sys.t1 with
    | none => none
    | some r => some (Sys.mk r.db sys.acct r.t sys.t2 r.lock)

/-- Run a schedule; `none` when the schedule is invalid. -/
def runSched : List Bool → Sys → Option Sys
  | [], sys => some sys
  | b :: rest, sys =>
    match sysStep sys b with
    | none => none
    | some sys2 => runSched rest sys2

/-!  Concrete states used to exercise the definitions. -/

/-- A store holding the single account ACC100 with a due of 5000. -/
def db0 : DB := DB.mk [Account.mk "ACC100" 5000 "x"] [] 1 100000

/-- The payment row the first scenario call inserts. -/
def pay1 : Payment := Payment.mk 1 "ACC100" 2000 "SUCCESS" 100000

/-- The store after recording a payment of 2000 on db0. -/
def db1 : DB := DB.mk [Account.mk "ACC100" 3000 "x"] [pay1] 2 100000

/-- The payment row the second scenario call inserts. -/
def pay2 : Payment := Payment.mk 2 "ACC100" 4000 "SUCCESS" 100000

/-- The store after further recording a payment of 4000 on db1. -/
def db2 : DB := DB.mk [Account.mk "ACC100" (-1000) "x"] [pay1, pay2] 3 100000

/-- A store with no accounts and no payments. -/
def dbEmpty : DB := DB.mk [] [] 1 100000

/-- Initial joint state: ACC100 owes 5000, transaction t1 pays 2000 and
transaction t2 pays 4000. -/
def sys0 : Sys :=
  Sys.mk db0 "ACC100" (TxSt.mk 2000 0 0 none none) (TxSt.mk 4000 0 0 none none) none

/-- The racy interleaving: both transactions SELECT before either commits;
t1 then inserts, updates and commits; t2 does the same afterwards. -/
def badSched : List Bool := [false, true, false, false, false, true, true, true]

/-- The serial schedule: t1 runs to commit, then t2. -/
def serialSched : List Bool := [false, false, false, false, true, true, true, true]

/-!  Helper lemmas. -/

theorem jsOrZero_sqlSum (l : List Rat) : jsOrZero (sqlSum l) = listSum l := by
  cases l with
  | nil => rfl
  | cons x xs =>
    show jsOrZero (some (listSum (x :: xs))) = listSum (x :: xs)
    unfold jsOrZero
    split <;> simp_all

theorem perm_insertByDateDesc (p : Payment) (l : List Payment) :
    (insertByDateDesc p l).Perm (p :: l) := by
  induction l with
  | nil => exact List.Perm.refl _
  | cons q rest ih =>
    unfold insertByDateDesc
    split
    · exact ((ih.cons q).trans (List.Perm.swap p q rest))
    · exact List.Perm.refl _

theorem perm_orderByDateDesc (l : List Payment) : (orderByDateDesc l).Perm l := by
  induction l with
  | nil => exact List.Perm.refl _
  | cons p rest ih =>
    exact (perm_insertByDateDesc p (orderByDateDesc rest)).trans (ih.cons p)

theorem mem_orderByDateDesc (x : Payment) (l : List Payment) :
    x ∈ orderByDateDesc l ↔ x ∈ l :=
  (perm_orderByDateDesc l).mem_iff

theorem mem_insertByDateDesc (x p : Payment) (l : List Payment) :
    x ∈ insertByDateDesc p l ↔ x = p ∨ x ∈ l := by
  rw [(perm_insertByDateDesc p l).mem_iff, List.mem_cons]

theorem sorted_insertByDateDesc (p : Payment) (l : List Payment)
    (h : List.Sorted dateDesc l) : List.Sorted dateDesc (insertByDateDesc p l) := by
  induction l with
  | nil => simp [insertByDateDesc, List.sorted_singleton]
  | cons q rest ih =>
    rw [List.sorted_cons] at h
    unfold insertByDateDesc
    split
    · rw [List.sorted_cons]
      refine ⟨?_, ih h.2⟩
      intro x hx
      rcases (mem_insertByDateDesc x p rest).1 hx with hxp | hxr
      · subst hxp; assumption
      · exact h.1 x hxr
    · rw [List.sorted_cons]
      refine ⟨?_, List.sorted_cons.2 h⟩
      intro x hx
      have hqp : dateDesc p q := le_of_not_le (by assumption)
      rcases List.mem_cons.1 hx with hxq | hxr
      · subst hxq; exact hqp
      · exact le_trans (h.1 x hxr) hqp

theorem sorted_orderByDateDesc (l : List Payment) :
    List.Sorted dateDesc (orderByDateDesc l) := by
  induction l with
  | nil => exact List.sorted_nil
  | cons p rest ih => exact sorted_insertByDateDesc p (orderByDateDesc rest) ih

theorem duesFor_updCustomers (l : List Account) (s : String) (v : Rat) :
    duesFor (updCustomers l s v) s = (duesFor l s).map (fun _ => v) := by
  induction l with
  | nil => rfl
  | cons c rest ih =>
    by_cases hc : c.account_number = s
    · simp [duesFor, updCustomers, List.filter_cons, hc] at ih ⊢
      exact ih
    · simp [duesFor, updCustomers, List.filter_cons, hc] at ih ⊢
      exact ih

theorem forall2_map_self {R : Account → Account → Prop} (f : Account → Account)
    (l : List Account) (h : ∀ x, R x (f x)) : List.Forall₂ R l (l.map f) := by
  induction l with
  | nil => exact List.Forall₂.nil
  | cons x xs ih => exact List.Forall₂.cons (h x) ih

theorem recordPaymentBody_success_eq (oracle : Nat → Bool) (s : String) (a : Rat)
    (db : DB) (c : Account) (rest : List Account)
    (h0 : oracle 0 = false) (h1 : oracle 1 = false) (h2 : oracle 2 = false)
    (h3 : oracle 3 = false) (h4 : oracle 4 = false)
    (hf : db.customers.filter (fun x => x.account_number = s) = c :: rest) :
    recordPaymentBody oracle s a db =
      PayOutcome.mk
        (PayResult.success (Payment.mk db.nextId s a "SUCCESS" db.now) (c.emi_due - a))
        (DB.mk (updCustomers db.customers s (c.emi_due - a))
          (db.payments ++ [Payment.mk db.nextId s a "SUCCESS" db.now])
          (db.nextId + 1) db.now)
        0 := by
  simp [recordPaymentBody, h0, h1, h2, h3, h4, hf]

theorem recordPaymentBody_success_inv (oracle : Nat → Bool) (s : String) (a : Rat)
    (db : DB) (p : Payment) (nb : Rat)
    (h : (recordPaymentBody oracle s a db).result = PayResult.success p nb) :
    ∃ c rest, db.customers.filter (fun x => x.account_number = s) = c :: rest ∧
      p = Payment.mk db.nextId s a "SUCCESS" db.now ∧ nb = c.emi_due - a ∧
      recordPaymentBody oracle s a db =
        PayOutcome.mk (PayResult.success p nb)
          (DB.mk (updCustomers db.customers s nb) (db.payments ++ [p])
            (db.nextId + 1) db.now)
          0 := by
  cases h0 : oracle 0 with
  | true => simp [recordPaymentBody, h0] at h
  | false =>
  cases h1 : oracle 1 with
  | true => simp [recordPaymentBody, h0, h1] at h
  | false =>
  cases hf : db.customers.filter (fun x => x.account_number = s) with
  | nil =>
    cases h2 : oracle 2 with
    | true => simp [recordPaymentBody, h0, h1, hf, h2] at h
    | false => simp [recordPaymentBody, h0, h1, hf, h2] at h
  | cons c rest =>
  cases h2 : oracle 2 with
  | true => simp [recordPaymentBody, h0, h1, hf, h2] at h
  | false =>
  cases h3 : oracle 3 with
  | true => simp [recordPaymentBody, h0, h1, hf, h2, h3] at h
  | false =>
  cases h4 : oracle 4 with
  | true => simp [recordPaymentBody, h0, h1, hf, h2, h3, h4] at h
  | false =>
    have heq := recordPaymentBody_success_eq oracle s a db c rest h0 h1 h2 h3 h4 hf
    rw [heq] at h
    have h5 : PayResult.success (Payment.mk db.nextId s a "SUCCESS" db.now)
        (c.emi_due - a) = PayResult.success p nb := h
    injection h5 with hp hnb
    refine ⟨c, rest, rfl, hp.symm, hnb.symm, ?_⟩
    rw [heq, hp, hnb]

theorem recordPaymentBody_db_of_error (oracle : Nat → Bool) (s : String) (a : Rat)
    (db : DB) (h : (recordPaymentBody oracle s a db).result.isSuccess = false) :
    (recordPaymentBody oracle s a db).db = db := by
  cases h0 : oracle 0 with
  | true => simp [recordPaymentBody, h0]
  | false =>
  cases h1 : oracle 1 with
  | true => simp [recordPaymentBody, h0, h1]
  | false =>
  cases hf : db.customers.filter (fun x => x.account_number = s) with
  | nil =>
    cases h2 : oracle 2 with
    | true => simp [recordPaymentBody, h0, h1, hf, h2]
    | false => simp [recordPaymentBody, h0, h1, hf, h2]
  | cons c rest =>
  cases h2 : oracle 2 with
  | true => simp [recordPaymentBody, h0, h1, hf, h2]
  | false =>
  cases h3 : oracle 3 with
  | true => simp [recordPaymentBody, h0, h1, hf, h2, h3]
  | false =>
  cases h4 : oracle 4 with
  | true => simp [recordPaymentBody, h0, h1, hf, h2, h3, h4]
  | false =>
    rw [recordPaymentBody_success_eq oracle s a db c rest h0 h1 h2 h3 h4 hf] at h
    simp [PayResult.isSuccess] at h

theorem recordPaymentBody_handles (oracle : Nat → Bool) (s : String) (a : Rat)
    (db : DB) : (recordPaymentBody oracle s a db).heldHandles = 0 := by
  cases h0 : oracle 0 with
  | true => simp [recordPaymentBody, h0]
  | false =>
  cases h1 : oracle 1 with
  | true => simp [recordPaymentBody, h0, h1]
  | false =>
  cases hf : db.customers.filter (fun x => x.account_number = s) with
  | nil =>
    cases h2 : oracle 2 with
    | true => simp [recordPaymentBody, h0, h1, hf, h2]
    | false => simp [recordPaymentBody, h0, h1, hf, h2]
  | cons c rest =>
  cases h2 : oracle 2 with
  | true => simp [recordPaymentBody, h0, h1, hf, h2]
  | false =>
  cases h3 : oracle 3 with
  | true => simp [recordPaymentBody, h0, h1, hf, h2, h3]
  | false =>
  cases h4 : oracle 4 with
  | true => simp [recordPaymentBody, h0, h1, hf, h2, h3, h4]
  | false =>
    rw [recordPaymentBody_success_eq oracle s a db c rest h0 h1 h2 h3 h4 hf]

theorem recordPayment_eq_body (oracle : Nat → Bool) (s : String) (a : Rat)
    (db : DB) (hs : s ≠ "") (ha : a ≠ 0) :
    recordPayment oracle (some s) (some a) db = recordPaymentBody oracle s a db := by
  have hval : ¬(s = "" ∨ a = 0) := by
    intro hor
    cases hor with
    | inl h => exact hs h
    | inr h => exact ha h
  simp [recordPayment, hval]

theorem eval_payment_db0 :
    recordPayment noFault (some "ACC100") (some 2000) db0 =
      PayOutcome.mk (PayResult.success pay1 3000) db1 0 := by
  rw [recordPayment_eq_body noFault "ACC100" 2000 db0 (by decide) (by norm_num)]
  rw [recordPaymentBody_success_eq noFault "ACC100" 2000 db0
    (Account.mk "ACC100" 5000 "x") [] rfl rfl rfl rfl rfl (by decide)]
  norm_num [db0, db1, pay1, updCustomers]

theorem eval_payment_db1 :
    recordPayment noFault (some "ACC100") (some 4000) db1 =
      PayOutcome.mk (PayResult.success pay2 (-1000)) db2 0 := by
  rw [recordPayment_eq_body noFault "ACC100" 4000 db1 (by decide) (by norm_num)]
  rw [recordPaymentBody_success_eq noFault "ACC100" 4000 db1
    (Account.mk "ACC100" 3000 "x") [] rfl rfl rfl rfl rfl (by decide)]
  norm_num [db1, db2, pay1, pay2, updCustomers]

/-- Claim C1: if RecordPayment returns success, the ledger afterwards
contains the new payment for that account and the account's due equals its
pre-call due minus the amount; if it returns any error (InvalidArgument,
NotFound or StorageError), the stores are exactly as before the call. -/
theorem recordPayment_atomic (oracle : Nat → Bool) (acct : Option String)
    (amt : Option Rat) (db : DB) :
    (∀ p nb, (recordPayment oracle acct amt db).result = PayResult.success p nb →
      ∃ s a d, acct = some s ∧ amt = some a ∧ firstDue db s = some d ∧
        p ∈ listPaymentsForAccount s (recordPayment oracle acct amt db).db ∧
        firstDue (recordPayment oracle acct amt db).db s = some (d - a) ∧
        nb = d - a) ∧
    ((recordPayment oracle acct amt db).result.isSuccess = false →
      (recordPayment oracle acct amt db).db = db) := by
  constructor
  · intro p nb h
    cases acct with
    | none => simp [recordPayment] at h
    | some s =>
    cases amt with
    | none => simp [recordPayment] at h
    | some a =>
    by_cases hval : s = "" ∨ a = 0
    · simp [recordPayment, hval] at h
    · have hbody : recordPayment oracle (some s) (some a) db =
          recordPaymentBody oracle s a db := by
        simp [recordPayment, hval]
      rw [hbody] at h ⊢
      obtain ⟨c, rest, hf, hp, hnb, heq⟩ :=
        recordPaymentBody_success_inv oracle s a db p nb h
      refine ⟨s, a, c.emi_due, rfl, rfl, ?_, ?_, ?_, hnb⟩
      · unfold firstDue duesFor
        rw [hf]
        rfl
      · rw [heq]
        unfold listPaymentsForAccount
        rw [mem_orderByDateDesc]
        simp only [List.mem_filter]
        constructor
        · simp
        · rw [hp]
          simp
      · rw [heq]
        unfold firstDue
        show (duesFor (updCustomers db.customers s nb) s).head? = some (c.emi_due - a)
        rw [duesFor_updCustomers]
        unfold duesFor
        rw [hf]
        rw [hnb]
        rfl
  · intro h
    cases acct with
    | none => simp [recordPayment]
    | some s =>
    cases amt with
    | none => simp [recordPayment]
    | some a =>
    by_cases hval : s = "" ∨ a = 0
    · simp [recordPayment, hval]
    · have hbody : recordPayment oracle (some s) (some a) db =
          recordPaymentBody oracle s a db := by
        simp [recordPayment, hval]
      rw [hbody] at h ⊢
      exact recordPaymentBody_db_of_error oracle s a db h

/-- Witness for C1 at a concrete input: recording 2000 against ACC100
(due 5000) makes the new payment row visible and drops the due to 3000. -/
theorem recordPayment_atomic_witness :
    pay1 ∈ listPaymentsForAccount "ACC100"
      (recordPayment noFault (some "ACC100") (some 2000) db0).db ∧
    firstDue (recordPayment noFault (some "ACC100") (some 2000) db0).db "ACC100" =
      some 3000 := by
  have h := (recordPayment_atomic noFault (some "ACC100") (some 2000) db0).1
    pay1 3000 (by rw [eval_payment_db0])
  obtain ⟨s, a, d, hs, ha, hd, hmem, hfd, hnb⟩ := h
  injection hs with hs2
  subst hs2
  injection ha with ha2
  subst ha2
  have hd5 : firstDue db0 "ACC100" = some 5000 := by decide
  rw [hd5] at hd
  injection hd with hd2
  subst hd2
  refine ⟨hmem, ?_⟩
  rw [hfd]
  norm_num

/-- Counterexample to C3 as stated: against db0 the account ACC100 exists,
the amount 0 is present and non-null, no storage error occurs, and yet the
call does not succeed — it is rejected as InvalidArgument by the JavaScript
truthiness guard. -/
theorem recordPayment_zero_amount_cex :
    (recordPayment noFault (some "ACC100") (some 0) db0).result =
      PayResult.invalidArgument := by decide

/-- Claim C3 (amended: the amount must also be non-zero, since the guard
treats the number 0 as falsy): when the account exists, the account number
is non-empty, the amount is a present, non-null, non-zero number and no
storage error occurs, the call succeeds, inserts exactly one payment row
with the given amount and status SUCCESS, updates the due to
currentDue - amount and returns that as new_balance; no positivity check is
performed, the balance may go negative, and a negative amount increases the
due. -/
theorem recordPayment_success_spec (s : String) (a : Rat) (db : DB)
    (c : Account) (rest : List Account) (hs : s ≠ "") (ha : a ≠ 0)
    (hf : db.customers.filter (fun x => x.account_number = s) = c :: rest) :
    recordPayment noFault (some s) (some a) db =
      PayOutcome.mk
        (PayResult.success (Payment.mk db.nextId s a "SUCCESS" db.now) (c.emi_due - a))
        (DB.mk (updCustomers db.customers s (c.emi_due - a))
          (db.payments ++ [Payment.mk db.nextId s a "SUCCESS" db.now])
          (db.nextId + 1) db.now)
        0 ∧
    (a < 0 → c.emi_due < c.emi_due - a) := by
  constructor
  · have hval : ¬(s = "" ∨ a = 0) := by
      intro hor
      cases hor with
      | inl h => exact hs h
      | inr h => exact ha h
    have hbody : recordPayment noFault (some s) (some a) db =
        recordPaymentBody noFault s a db := by
      simp [recordPayment, hval]
    rw [hbody]
    exact recordPaymentBody_success_eq noFault s a db c rest rfl rfl rfl rfl rfl hf
  · intro hneg
    linarith

/-- Witness for C3: the spec scenario.  On ACC100 with due 5000, paying
2000 succeeds with new_balance 3000; paying 4000 on the resulting store
succeeds with new_balance -1000, the credit surplus being persisted. -/
theorem recordPayment_success_spec_witness :
    recordPayment noFault (some "ACC100") (some 2000) db0 =
      PayOutcome.mk (PayResult.success pay1 3000) db1 0 ∧
    recordPayment noFault (some "ACC100") (some 4000) db1 =
      PayOutcome.mk (PayResult.success pay2 (-1000)) db2 0 := by
  have h1 := recordPayment_success_spec "ACC100" 2000 db0
    (Account.mk "ACC100" 5000 "x") [] (by decide) (by decide) (by decide)
  have h2 := recordPayment_success_spec "ACC100" 4000 db1
    (Account.mk "ACC100" 3000 "x") [] (by decide) (by decide) (by decide)
  exact ⟨h1.1.trans (by norm_num [db0, db1, pay1, updCustomers]),
         h2.1.trans (by norm_num [db1, db2, pay1, pay2, updCustomers])⟩

/-- Claim C10: a successful RecordPayment appends exactly one payment row
for the paid account and touches nothing else: every other account is
unchanged in all fields, the paid account changes at most its emi_due
(account_number and the other columns are kept), pre-existing payment rows
are unchanged, and the clock is untouched. -/
theorem recordPayment_frame (oracle : Nat → Bool) (s : String) (a : Rat)
    (db : DB) (p : Payment) (nb : Rat)
    (h : (recordPayment oracle (some s) (some a) db).result = PayResult.success p nb) :
    (recordPayment oracle (some s) (some a) db).db.payments = db.payments ++ [p] ∧
    p.customer_account_number = s ∧
    List.Forall₂
      (fun c c2 => c2.account_number = c.account_number ∧ c2.extra = c.extra ∧
        (c.account_number ≠ s → c2 = c))
      db.customers (recordPayment oracle (some s) (some a) db).db.customers ∧
    (recordPayment oracle (some s) (some a) db).db.now = db.now := by
  by_cases hval : s = "" ∨ a = 0
  · simp [recordPayment, hval] at h
  · have hbody : recordPayment oracle (some s) (some a) db =
        recordPaymentBody oracle s a db := by
      simp [recordPayment, hval]
    rw [hbody] at h ⊢
    obtain ⟨c, rest, hf, hp, hnb, heq⟩ :=
      recordPaymentBody_success_inv oracle s a db p nb h
    rw [heq]
    refine ⟨rfl, by rw [hp], ?_, rfl⟩
    apply forall2_map_self
    intro x
    by_cases hx : x.account_number = s
    · simp [hx]
    · simp [hx]

/-- Witness for C10 at a concrete input: the successful 2000 payment on db0
appends exactly the row pay1, which references ACC100. -/
theorem recordPayment_frame_witness :
    (recordPayment noFault (some "ACC100") (some 2000) db0).db.payments =
      db0.payments ++ [pay1] ∧
    pay1.customer_account_number = "ACC100" := by
  have h := recordPayment_frame noFault "ACC100" 2000 db0 pay1 3000
    (by rw [eval_payment_db0])
  exact ⟨h.1, h.2.1⟩

/-- Counterexample to C4 as stated: with account "ACC100" and amount 0 both
inputs are present — neither is missing, empty nor null — and still the
call fails validation with InvalidArgument, so a validation failure does
not occur exactly when an input is absent. -/
theorem recordPayment_validation_cex :
    (recordPayment noFault (some "ACC100") (some 0) db0).result =
      PayResult.invalidArgument ∧
    (some "ACC100" : Option String) ≠ none ∧ ("ACC100" : String) ≠ "" ∧
    (some (0 : Rat) : Option Rat) ≠ none := by
  refine ⟨by decide, by decide, by decide, by decide⟩

/-- Claim C4 (amended: a validation failure occurs exactly when an input is
absent — missing, null, or the empty account number — or the amount is the
falsy number 0): such calls fail with InvalidArgument, and the failure
happens before any transaction: the outcome never depends on the fault
oracle or mutates the store, and no connection handle is taken. -/
theorem recordPayment_validation (oracle : Nat → Bool) (acct : Option String)
    (amt : Option Rat) (db : DB) :
    ((recordPayment oracle acct amt db).result = PayResult.invalidArgument ↔
      acct = none ∨ acct = some "" ∨ amt = none ∨ amt = some 0) ∧
    (acct = none ∨ acct = some "" ∨ amt = none ∨ amt = some 0 →
      recordPayment oracle acct amt db = PayOutcome.mk PayResult.invalidArgument db 0) := by
  constructor
  · constructor
    · intro h
      cases acct with
      | none => exact Or.inl rfl
      | some s =>
      cases amt with
      | none => exact Or.inr (Or.inr (Or.inl rfl))
      | some a =>
      by_cases hval : s = "" ∨ a = 0
      · cases hval with
        | inl hs => exact Or.inr (Or.inl (by rw [hs]))
        | inr ha => exact Or.inr (Or.inr (Or.inr (by rw [ha])))
      · exfalso
        rw [recordPayment_eq_body oracle s a db
          (fun hs => hval (Or.inl hs)) (fun ha => hval (Or.inr ha))] at h
        cases h0 : oracle 0 with
        | true => simp [recordPaymentBody, h0] at h
        | false =>
        cases h1 : oracle 1 with
        | true => simp [recordPaymentBody, h0, h1] at h
        | false =>
        cases hf : db.customers.filter (fun x => x.account_number = s) with
        | nil =>
          cases h2 : oracle 2 with
          | true => simp [recordPaymentBody, h0, h1, hf, h2] at h
          | false => simp [recordPaymentBody, h0, h1, hf, h2] at h
        | cons c rest =>
        cases h2 : oracle 2 with
        | true => simp [recordPaymentBody, h0, h1, hf, h2] at h
        | false =>
        cases h3 : oracle 3 with
        | true => simp [recordPaymentBody, h0, h1, hf, h2, h3] at h
        | false =>
        cases h4 : oracle 4 with
        | true => simp [recordPaymentBody, h0, h1, hf, h2, h3, h4] at h
        | false =>
          rw [recordPaymentBody_success_eq oracle s a db c rest h0 h1 h2 h3 h4 hf] at h
          exact PayResult.noConfusion h
    · intro h
      rcases h with h | h | h | h
      · rw [h]; rfl
      · rw [h]
        cases amt with
        | none => rfl
        | some a => simp [recordPayment]
      · cases acct with
        | none => rw [h]; rfl
        | some s => rw [h]; rfl
      · cases acct with
        | none => rw [h]; rfl
        | some s => rw [h]; simp [recordPayment]
  · intro h
    rcases h with h | h | h | h
    · rw [h]; rfl
    · rw [h]
      cases amt with
      | none => rfl
      | some a => simp [recordPayment]
    · cases acct with
      | none => rw [h]; rfl
      | some s => rw [h]; rfl
    · cases acct with
      | none => rw [h]; rfl
      | some s => rw [h]; simp [recordPayment]

/-- Witness for C4 at a concrete input: a request with a missing account
number is answered InvalidArgument and leaves the store untouched with no
handle held. -/
theorem recordPayment_validation_witness :
    recordPayment noFault none (some 5) db0 =
      PayOutcome.mk PayResult.invalidArgument db0 0 :=
  (recordPayment_validation noFault none (some 5) db0).2 (Or.inl rfl)

/-- Claim C5: a RecordPayment call with a well-formed (truthy) account
number that matches no account, and a truthy amount, never touches either
store under any fault oracle, and in a run without storage errors it
returns NotFound. -/
theorem recordPayment_unknown_account (s : String) (a : Rat) (db : DB)
    (hs : s ≠ "") (ha : a ≠ 0)
    (hacc : db.customers.filter (fun c => c.account_number = s) = []) :
    (∀ oracle, (recordPayment oracle (some s) (some a) db).db = db) ∧
    (recordPayment noFault (some s) (some a) db).result = PayResult.notFound := by
  constructor
  · intro oracle
    rw [recordPayment_eq_body oracle s a db hs ha]
    cases h0 : oracle 0 with
    | true => simp [recordPaymentBody, h0]
    | false =>
    cases h1 : oracle 1 with
    | true => simp [recordPaymentBody, h0, h1]
    | false =>
    cases h2 : oracle 2 with
    | true => simp [recordPaymentBody, h0, h1, hacc, h2]
    | false => simp [recordPaymentBody, h0, h1, hacc, h2]
  · rw [recordPayment_eq_body noFault s a db hs ha]
    simp [recordPaymentBody, noFault, hacc]

/-- Witness for C5 at a concrete input: paying 100 against the unknown
account NOPE on db0 leaves the store unchanged and answers NotFound. -/
theorem recordPayment_unknown_account_witness :
    (recordPayment noFault (some "NOPE") (some 100) db0).db = db0 ∧
    (recordPayment noFault (some "NOPE") (some 100) db0).result =
      PayResult.notFound := by
  have h := recordPayment_unknown_account "NOPE" 100 db0
    (by decide) (by norm_num) (by decide)
  exact ⟨h.1 noFault, h.2⟩

/-- Claim C9: an amount that is present and non-null but JavaScript-falsy —
the number 0 — is rejected with InvalidArgument before any store access
(the outcome depends on neither the fault oracle nor the store, which is
returned unchanged with no handle held); consequently a zero-amount payment
can never be recorded. -/
theorem recordPayment_falsy_amount (oracle : Nat → Bool) (acct : Option String)
    (db : DB) :
    recordPayment oracle acct (some 0) db =
      PayOutcome.mk PayResult.invalidArgument db 0 ∧
    (∀ amt p nb, (recordPayment oracle acct amt db).result = PayResult.success p nb →
      p.payment_amount ≠ 0) := by
  constructor
  · cases acct with
    | none => rfl
    | some s => simp [recordPayment]
  · intro amt p nb h
    cases acct with
    | none => simp [recordPayment] at h
    | some s =>
    cases amt with
    | none => simp [recordPayment] at h
    | some a =>
    by_cases hval : s = "" ∨ a = 0
    · simp [recordPayment, hval] at h
    · rw [recordPayment_eq_body oracle s a db
        (fun hs => hval (Or.inl hs)) (fun ha => hval (Or.inr ha))] at h
      obtain ⟨c, rest, hf, hp, hnb, heq⟩ :=
        recordPaymentBody_success_inv oracle s a db p nb h
      rw [hp]
      intro hz
      exact hval (Or.inr hz)

/-- Witness for C9 at a concrete input: paying 0 against the existing
account ACC100 is rejected as InvalidArgument with the store untouched, and
the successful 2000 payment on db0 indeed carries a non-zero amount. -/
theorem recordPayment_falsy_amount_witness :
    recordPayment noFault (some "ACC100") (some 0) db0 =
      PayOutcome.mk PayResult.invalidArgument db0 0 ∧
    pay1.payment_amount ≠ 0 := by
  have h := recordPayment_falsy_amount noFault (some "ACC100") db0
  exact ⟨h.1, h.2 (some 2000) pay1 3000 (by rw [eval_payment_db0])⟩

/-- Claim C6: in a run without storage errors, GetAnalytics returns
collected_today equal to the sum of payment_amount over the payments whose
payment_date falls on the current server date, and pending_total equal to
the sum of emi_due over all accounts; with no matching payments or no
accounts the respective field is 0, never null and never an error. -/
theorem getAnalytics_sums (oracle : Nat → Bool) (db : DB)
    (h0 : oracle 0 = false) (h1 : oracle 1 = false) :
    getAnalytics oracle db =
      AnalyticsOutcome.mk
        (some (Prod.mk (listSum (todayAmounts db)) (listSum (allDues db)))) 0 ∧
    (db.payments = [] →
      getAnalytics oracle db =
        AnalyticsOutcome.mk (some (Prod.mk 0 (listSum (allDues db)))) 0) ∧
    (db.customers = [] →
      getAnalytics oracle db =
        AnalyticsOutcome.mk (some (Prod.mk (listSum (todayAmounts db)) 0)) 0) := by
  have hmain : getAnalytics oracle db =
      AnalyticsOutcome.mk
        (some (Prod.mk (listSum (todayAmounts db)) (listSum (allDues db)))) 0 := by
    simp [getAnalytics, h0, h1, jsOrZero_sqlSum]
  refine ⟨hmain, ?_, ?_⟩
  · intro hp
    rw [hmain]
    have he : todayAmounts db = [] := by simp [todayAmounts, hp]
    rw [he]
    rfl
  · intro hc
    rw [hmain]
    have he : allDues db = [] := by simp [allDues, hc]
    rw [he]
    rfl

/-- Witness for C6 at a concrete input: on the store with no accounts and
no payments, GetAnalytics answers collected_today 0 and pending_total 0. -/
theorem getAnalytics_sums_witness :
    getAnalytics noFault dbEmpty = AnalyticsOutcome.mk (some (Prod.mk 0 0)) 0 := by
  have h := (getAnalytics_sums noFault dbEmpty rfl rfl).2.1 rfl
  rw [h]
  rfl

/-- Claim C7: ListPayments and ListPaymentsForAccount return the stored
rows (respectively the rows of the requested account) sorted by
payment_date descending, and for an account with no payments — in
particular a non-existent one — ListPaymentsForAccount returns the empty
sequence rather than an error. -/
theorem listPayments_sorted_desc (db : DB) (s : String) :
    List.Sorted dateDesc (listPayments db) ∧
    (listPayments db).Perm db.payments ∧
    List.Sorted dateDesc (listPaymentsForAccount s db) ∧
    (listPaymentsForAccount s db).Perm
      (db.payments.filter (fun p => p.customer_account_number = s)) ∧
    ((∀ p, p ∈ db.payments → p.customer_account_number ≠ s) →
      listPaymentsForAccount s db = []) := by
  refine ⟨sorted_orderByDateDesc db.payments, perm_orderByDateDesc db.payments,
    sorted_orderByDateDesc _, perm_orderByDateDesc _, ?_⟩
  intro hnone
  have hf : db.payments.filter (fun p => p.customer_account_number = s) = [] := by
    rw [List.filter_eq_nil_iff]
    intro p hp
    simpa using hnone p hp
  unfold listPaymentsForAccount
  rw [hf]
  rfl

/-- Witness for C7 at a concrete input: the account OTHER has no payments
in db1, and its history is the empty sequence. -/
theorem listPayments_sorted_desc_witness :
    listPaymentsForAccount "OTHER" db1 = [] :=
  (listPayments_sorted_desc db1 "OTHER").2.2.2.2 (by decide)

/-- Claim C8 is violated by GET /analytics: RecordPayment releases its
connection handle on every exit path (validation failure, NotFound,
storage error and success alike), but GetAnalytics calls release only
after both queries succeed, so when its first query fails the invocation
ends still holding one handle. -/
theorem connection_release_audit :
    (∀ oracle acct amt db, (recordPayment oracle acct amt db).heldHandles = 0) ∧
    getAnalytics failFirst db0 = AnalyticsOutcome.mk none 1 ∧
    (getAnalytics noFault db0).heldHandles = 0 := by
  refine ⟨?_, by decide, by decide⟩
  intro oracle acct amt db
  cases acct with
  | none => rfl
  | some s =>
  cases amt with
  | none => rfl
  | some a =>
  by_cases hval : s = "" ∨ a = 0
  · simp [recordPayment, hval]
  · rw [recordPayment_eq_body oracle s a db
      (fun hs => hval (Or.inl hs)) (fun ha => hval (Or.inr ha))]
    exact recordPaymentBody_handles oracle s a db

/-- Claim C2 is violated by the code: under the racy but READ COMMITTED
legal interleaving badSched, both concurrent RecordPayment calls (amounts
2000 and 4000 against ACC100 with initial due 5000) commit and answer
success, both payment rows are stored, yet the final due is 1000 — the
last writer's stale computation — and not 5000 - (2000 + 4000).  Under the
serial schedule the final due is -1000 as the claim demands. -/
theorem lost_update_interleaving :
    (runSched badSched sys0).map (fun sys => sys.t1.pc) = some 4 ∧
    (runSched badSched sys0).map (fun sys => sys.t2.pc) = some 4 ∧
    (runSched badSched sys0).map (fun sys => sys.db.payments.length) = some 2 ∧
    (runSched badSched sys0).map (fun sys => firstDue sys.db "ACC100") =
      some (some 1000) ∧
    (1000 : Rat) ≠ 5000 - (2000 + 4000) ∧
    (runSched serialSched sys0).map (fun sys => firstDue sys.db "ACC100") =
      some (some (-1000)) ∧
    (-1000 : Rat) = 5000 - (2000 + 4000) := by
  norm_num [runSched, badSched, serialSched, sys0, sysStep, txStep, db0,
    firstDue, duesFor, updCustomers]

end PaymentApp

